import Mathlib

/-!
Verification of the trend-and-pattern detection engine of the Trading
Confluence Scanner.  The definitions below are a shallow embedding of the
JavaScript functions `ema`, `detectTrendHTF`, `findPivots`, `approxEqual`,
`detectMTop`, `detectInvertedM`, `detectHeadAndShoulders`,
`detectInverseHeadAndShoulders`, `buildPatternSignal` and
`detectPatternWithConfluence` from the server source.  JavaScript numbers are
modelled as exact rationals; candle sequences as lists.
-/

namespace Scanner

/-- Candle: one OHLC bar.  The JS field `open` is called `opn` here because
`open` is a Lean keyword; `time` models the JS `Date` as an integer. -/
structure Candle where
  time : Int
  opn : ℚ
  high : ℚ
  low : ℚ
  close : ℚ
deriving DecidableEq, Repr, Inhabited

/-- Trend: result record of `detectTrendHTF`, a direction string and a
human-readable reason, exactly as the JS object holds them. -/
structure Trend where
  trend : String
  reason : String
deriving DecidableEq, Repr

/-- PatternResult: result record of a pattern matcher.  The JS `indices`
object is modelled as the list of its values in insertion order:
M-top gives [h1Idx, h2Idx, lIdx], Inverted M gives [l1Idx, l2Idx, hIdx],
the head-and-shoulders variants give [lsIdx, headIdx, rsIdx, n1Idx, n2Idx]. -/
structure PatternResult where
  type : String
  indices : List Nat
deriving DecidableEq, Repr

/-- Signal: the finished signal record built by `buildPatternSignal`.
`fromTime`/`toTime` model the JS `from`/`to` fields (`null` becomes `none`). -/
structure Signal where
  direction : String
  pattern : String
  timeframe : String
  fromTime : Option Int
  toTime : Option Int
deriving DecidableEq, Repr

/-- ema: JS `ema(values, period)`.  Returns `[]` when fewer than `period`
values are supplied; otherwise seeds with the simple average of the first
`period` values and then applies `prevEma = values[i] * k + prevEma * (1-k)`
for each remaining value, collecting every intermediate value. -/
def emaAux (k : ℚ) (prev : ℚ) : List ℚ → List ℚ
  | [] => []
  | v :: rest =>
    let e := v * k + prev * (1 - k)
    e :: emaAux k e rest

def ema (values : List ℚ) (period : Nat) : List ℚ :=
  if values.length < period then []
  else
    let k : ℚ := 2 / ((period : ℚ) + 1)
    let seed : ℚ := (values.take period).sum / (period : ℚ)
    seed :: emaAux k seed (values.drop period)

/-- detectTrendHTF: JS trend classifier over a higher-timeframe series. -/
def detectTrendHTF (candles : List Candle) : Trend :=
  if candles.length < 60 then ⟨"neutral", "Not enough data"⟩
  else
    let closes := candles.map (·.close)
    let ema50 := ema closes 50
    let ema200 := ema closes 200
    if ema200.length = 0 then ⟨"neutral", "Not enough EMA data"⟩
    else
      let lastClose := closes.getD (closes.length - 1) 0
      let lastEma50 := ema50.getD (ema50.length - 1) 0
      let lastEma200 := ema200.getD (ema200.length - 1) 0
      if lastClose > lastEma50 ∧ lastEma50 > lastEma200 then
        ⟨"bullish", "Close > EMA50 > EMA200"⟩
      else if lastClose < lastEma50 ∧ lastEma50 < lastEma200 then
        ⟨"bearish", "Close < EMA50 < EMA200"⟩
      else
        ⟨"sideways", "Mixed EMAs"⟩

/-- isHighAt: the inner loop of `findPivots` for the high side: no candle in
the window [i-lookback, i+lookback] has a high strictly above candle i's. -/
def isHighAt (candles : List Candle) (lookback i : Nat) : Bool :=
  (List.range' (i - lookback) (2 * lookback + 1)).all fun j =>
    ! decide ((candles.getD j default).high > (candles.getD i default).high)

/-- isLowAt: the inner loop of `findPivots` for the low side. -/
def isLowAt (candles : List Candle) (lookback i : Nat) : Bool :=
  (List.range' (i - lookback) (2 * lookback + 1)).all fun j =>
    ! decide ((candles.getD j default).low < (candles.getD i default).low)

/-- findPivots: JS `findPivots(candles, lookback)`.  Scans indices
`lookback ≤ i < length - lookback` in increasing order and collects the high
pivots and the low pivots. -/
def findPivots (candles : List Candle) (lookback : Nat) : List Nat × List Nat :=
  let idxs := List.range' lookback (candles.length - 2 * lookback)
  (idxs.filter (isHighAt candles lookback), idxs.filter (isLowAt candles lookback))

/-- approxEqual: JS `approxEqual(a, b, tolerance)`.  The JS expression
`(Math.abs(a) + Math.abs(b)) / 2 || 1` yields the average magnitude unless
that average is exactly zero, in which case it yields 1. -/
def approxEqual (a b : ℚ) (tolerance : ℚ) : Bool :=
  let diff := |a - b|
  let avg := (|a| + |b|) / 2
  let avgGuard := if avg = 0 then 1 else avg
  decide (diff / avgGuard ≤ tolerance)

/-- descRange start stop: the descending index list [start, start-1, ..., stop]
of a JS loop `for (let i = start; i >= stop; i--)`; empty when start < stop. -/
def descRange (start stop : Nat) : List Nat :=
  (List.range' stop (start + 1 - stop)).reverse

/-- mtopCheck: one iteration of the `detectMTop` loop at position `i` of the
`lastHighs` window, returning the match if every guard passes. -/
def mtopCheck (candles : List Candle) (lows lastHighs : List Nat) (i : Nat) :
    Option PatternResult :=
  let h1Idx := lastHighs.getD (i - 1) 0
  let h2Idx := lastHighs.getD i 0
  let midLows := lows.filter fun x => decide (h1Idx < x) && decide (x < h2Idx)
  match midLows with
  | [] => none
  | lIdx :: _ =>
    let h1 := (candles.getD h1Idx default).high
    let h2 := (candles.getD h2Idx default).high
    let low := (candles.getD lIdx default).low
    if !(approxEqual h1 h2 0.015) then none
    else if (max h1 h2 - low) / max h1 h2 < 0.01 then none
    else some ⟨"M-top", [h1Idx, h2Idx, lIdx]⟩

/-- detectMTop: JS `detectMTop(candles)`.  Finds pivots with lookback 2, keeps
the last 4 high pivots, and runs the pair loop with
`for (let i = lastHighs.length - 2; i >= 1; i--)`. -/
def detectMTop (candles : List Candle) : Option PatternResult :=
  let piv := findPivots candles 2
  let highs := piv.1
  let lows := piv.2
  if highs.length < 2 ∨ lows.length < 1 then none
  else
    let lastHighs := highs.drop (highs.length - 4)
    (descRange (lastHighs.length - 2) 1).findSome? (mtopCheck candles lows lastHighs)

/-- invMCheck: one iteration of the `detectInvertedM` loop at position `i`. -/
def invMCheck (candles : List Candle) (highs lastLows : List Nat) (i : Nat) :
    Option PatternResult :=
  let l1Idx := lastLows.getD (i - 1) 0
  let l2Idx := lastLows.getD i 0
  let midHighs := highs.filter fun x => decide (l1Idx < x) && decide (x < l2Idx)
  match midHighs with
  | [] => none
  | hIdx :: _ =>
    let l1 := (candles.getD l1Idx default).low
    let l2 := (candles.getD l2Idx default).low
    let high := (candles.getD hIdx default).high
    if !(approxEqual l1 l2 0.015) then none
    else if (high - min l1 l2) / min l1 l2 < 0.01 then none
    else some ⟨"Inverted M", [l1Idx, l2Idx, hIdx]⟩

/-- detectInvertedM: JS `detectInvertedM(candles)`, mirror of `detectMTop`. -/
def detectInvertedM (candles : List Candle) : Option PatternResult :=
  let piv := findPivots candles 2
  let highs := piv.1
  let lows := piv.2
  if lows.length < 2 ∨ highs.length < 1 then none
  else
    let lastLows := lows.drop (lows.length - 4)
    (descRange (lastLows.length - 2) 1).findSome? (invMCheck candles highs lastLows)

/-- hsCheck: one iteration of the `detectHeadAndShoulders` loop at position
`i` of the `lastHighs` window. -/
def hsCheck (candles : List Candle) (lows lastHighs : List Nat) (i : Nat) :
    Option PatternResult :=
  let lsIdx := lastHighs.getD i 0
  let headIdx := lastHighs.getD (i + 1) 0
  let rsIdx := lastHighs.getD (i + 2) 0
  let ls := (candles.getD lsIdx default).high
  let head := (candles.getD headIdx default).high
  let rs := (candles.getD rsIdx default).high
  if !(decide (head > ls * 1.01) && decide (head > rs * 1.01)) then none
  else if !(approxEqual ls rs 0.02) then none
  else
    let neckLows := lows.filter fun x => decide (lsIdx < x) && decide (x < rsIdx)
    if neckLows.length < 2 then none
    else
      let n1Idx := neckLows.getD 0 0
      let n2Idx := neckLows.getD (neckLows.length - 1) 0
      let n1 := (candles.getD n1Idx default).low
      let n2 := (candles.getD n2Idx default).low
      if !(approxEqual n1 n2 0.02) then none
      else some ⟨"Head & Shoulders", [lsIdx, headIdx, rsIdx, n1Idx, n2Idx]⟩

/-- detectHeadAndShoulders: JS `detectHeadAndShoulders(candles)`.  Keeps the
last 6 high pivots and runs `for (let i = lastHighs.length - 3; i >= 0; i--)`
over triples of consecutive high pivots. -/
def detectHeadAndShoulders (candles : List Candle) : Option PatternResult :=
  let piv := findPivots candles 2
  let highs := piv.1
  let lows := piv.2
  if highs.length < 3 ∨ lows.length < 2 then none
  else
    let lastHighs := highs.drop (highs.length - 6)
    if lastHighs.length < 3 then none
    else
      (descRange (lastHighs.length - 3) 0).findSome? (hsCheck candles lows lastHighs)

/-- invHsCheck: one iteration of the `detectInverseHeadAndShoulders` loop. -/
def invHsCheck (candles : List Candle) (highs lastLows : List Nat) (i : Nat) :
    Option PatternResult :=
  let lsIdx := lastLows.getD i 0
  let headIdx := lastLows.getD (i + 1) 0
  let rsIdx := lastLows.getD (i + 2) 0
  let ls := (candles.getD lsIdx default).low
  let head := (candles.getD headIdx default).low
  let rs := (candles.getD rsIdx default).low
  if !(decide (head < ls * 0.99) && decide (head < rs * 0.99)) then none
  else if !(approxEqual ls rs 0.02) then none
  else
    let neckHighs := highs.filter fun x => decide (lsIdx < x) && decide (x < rsIdx)
    if neckHighs.length < 2 then none
    else
      let n1Idx := neckHighs.getD 0 0
      let n2Idx := neckHighs.getD (neckHighs.length - 1) 0
      let n1 := (candles.getD n1Idx default).high
      let n2 := (candles.getD n2Idx default).high
      if !(approxEqual n1 n2 0.02) then none
      else some ⟨"Inverse Head & Shoulders", [lsIdx, headIdx, rsIdx, n1Idx, n2Idx]⟩

/-- detectInverseHeadAndShoulders: JS mirror of `detectHeadAndShoulders`. -/
def detectInverseHeadAndShoulders (candles : List Candle) : Option PatternResult :=
  let piv := findPivots candles 2
  let highs := piv.1
  let lows := piv.2
  if lows.length < 3 ∨ highs.length < 2 then none
  else
    let lastLows := lows.drop (lows.length - 6)
    if lastLows.length < 3 then none
    else
      (descRange (lastLows.length - 3) 0).findSome? (invHsCheck candles highs lastLows)

/-- buildPatternSignal: JS `buildPatternSignal(direction, tfLabel,
patternResult, candles)`.  `Object.values(indices)` is the `indices` list;
`Math.min`/`Math.max` over a non-empty list are `List.min?`/`List.max?`;
`candles[i]?.time || null` is the optional lookup of the candle's time. -/
def buildPatternSignal (direction tfLabel : String) (patternResult : PatternResult)
    (candles : List Candle) : Signal :=
  let indexValues := patternResult.indices
  let fromTo : Option Int × Option Int :=
    if 0 < indexValues.length then
      match indexValues.min?, indexValues.max? with
      | some startIdx, some endIdx =>
        ((candles.get? startIdx).map (·.time), (candles.get? endIdx).map (·.time))
      | _, _ => (none, none)
    else (none, none)
  { direction := direction
    pattern := patternResult.type
    timeframe := tfLabel
    fromTime := fromTo.1
    toTime := fromTo.2 }

/-- gateCore: the body of `detectPatternWithConfluence` after the four matcher
calls, taking the four matcher outputs as arguments. -/
def gateCore (candles : List Candle) (tfLabel : String) (dayTrend weekTrend : Trend)
    (mTop invM hs invHs : Option PatternResult) : Option Signal :=
  let isBearishHTF := dayTrend.trend == "bearish" && weekTrend.trend == "bearish"
  let isBullishHTF := dayTrend.trend == "bullish" && weekTrend.trend == "bullish"
  match isBearishHTF, mTop.orElse fun _ => hs with
  | true, some p => some (buildPatternSignal "bearish" tfLabel p candles)
  | _, _ =>
    match isBullishHTF, invM.orElse fun _ => invHs with
    | true, some p => some (buildPatternSignal "bullish" tfLabel p candles)
    | _, _ => none

/-- detectPatternWithConfluence: JS `detectPatternWithConfluence(candles,
tfLabel, dayTrend, weekTrend)`: run the four matchers, then the gate. -/
def detectPatternWithConfluence (candles : List Candle) (tfLabel : String)
    (dayTrend weekTrend : Trend) : Option Signal :=
  gateCore candles tfLabel dayTrend weekTrend (detectMTop candles)
    (detectInvertedM candles) (detectHeadAndShoulders candles)
    (detectInverseHeadAndShoulders candles)

/-! Synthetic candle series used as concrete test vectors.  `mkC p` is a
degenerate bar whose four prices all equal `p` (the matchers only read
`high` and `low`). -/

/-- mkC: a candle with all four prices equal to `p` and timestamp 0. -/
def mkC (p : ℚ) : Candle := ⟨0, p, p, p, p⟩

/-- exA: 19 bars with high pivots at 3 (10000), 9 (10100) and 15, and low
pivots at 6 (9898 = 10100 * 0.98) and 12, under lookback 2.  The adjacent
high-pivot pair (3, 9) differs by exactly 1% and its trough is exactly 2%
below the higher high. -/
def exA : List Candle :=
  [mkC 9700, mkC 9800, mkC 9900, mkC 10000, mkC 9960, mkC 9930, mkC 9898,
   mkC 9940, mkC 10000, mkC 10100, mkC 10040, mkC 9990, mkC 9950, mkC 9960,
   mkC 9980, mkC 10050, mkC 10020, mkC 9990, mkC 9960]

/-- exB: as `exA` but the second high is 10200, so the pair (3, 9) differs by
about 2%, beyond the 1.5% tolerance. -/
def exB : List Candle :=
  [mkC 9700, mkC 9800, mkC 9900, mkC 10000, mkC 9960, mkC 9930, mkC 9898,
   mkC 9940, mkC 10000, mkC 10200, mkC 10040, mkC 9990, mkC 9950, mkC 9960,
   mkC 9980, mkC 10050, mkC 10020, mkC 9990, mkC 9960]

/-- exC: the first 13 bars of `exA`: exactly two high pivots (3 and 9, 1%
apart) with one low pivot (6, 2% below the higher high) between them. -/
def exC : List Candle :=
  [mkC 9700, mkC 9800, mkC 9900, mkC 10000, mkC 9960, mkC 9930, mkC 9898,
   mkC 9940, mkC 10000, mkC 10100, mkC 10040, mkC 9990, mkC 9950]

/-- exD: 19 bars with high pivots at 3 (10000), 9 (10100) and 15 (10000) and
low pivots at 6 and 12 (both 9900), under lookback 2.  The head at 9 is
exactly 1% above both shoulders: 10100 = 10000 * 1.01. -/
def exD : List Candle :=
  [mkC 9700, mkC 9800, mkC 9900, mkC 10000, mkC 9950, mkC 9930, mkC 9900,
   mkC 9960, mkC 10000, mkC 10100, mkC 10000, mkC 9950, mkC 9900, mkC 9950,
   mkC 9970, mkC 10000, mkC 9970, mkC 9940, mkC 9910]

/-- exE: as `exD` but with the head at 10110, strictly more than 1% above
both shoulders. -/
def exE : List Candle :=
  [mkC 9700, mkC 9800, mkC 9900, mkC 10000, mkC 9950, mkC 9930, mkC 9900,
   mkC 9960, mkC 10000, mkC 10110, mkC 10000, mkC 9950, mkC 9900, mkC 9950,
   mkC 9970, mkC 10000, mkC 9970, mkC 9940, mkC 9910]

/-- exFlat: seven identical bars; every interior index is simultaneously a
high pivot and a low pivot under lookback 3. -/
def exFlat : List Candle := List.replicate 7 (mkC 100)

/-- wCandles: three time-ordered bars with timestamps 10, 20 and 30, used to
exercise the Signal Builder. -/
def wCandles : List Candle :=
  [⟨10, 1, 1, 1, 1⟩, ⟨20, 2, 2, 2, 2⟩, ⟨30, 3, 3, 3, 3⟩]

/-! Specification-side definitions, worded after the specification document,
used to state refinement theorems against the code-side functions above. -/

/-- mtopValid: specification wording of the Double-Top validity test for the
pair at position `i` of the recency window: at least one low pivot lies
strictly between the two highs, the highs are within 1.5% relative tolerance,
and the (first) trough is at least 1% below the higher of the two highs. -/
def mtopValid (candles : List Candle) (lows lastHighs : List Nat) (i : Nat) : Bool :=
  let h1Idx := lastHighs.getD (i - 1) 0
  let h2Idx := lastHighs.getD i 0
  let midLows := lows.filter fun x => decide (h1Idx < x) && decide (x < h2Idx)
  let h1 := (candles.getD h1Idx default).high
  let h2 := (candles.getD h2Idx default).high
  let trough := (candles.getD (midLows.headD 0) default).low
  decide (midLows ≠ []) && approxEqual h1 h2 0.015 &&
    decide (0.01 ≤ (max h1 h2 - trough) / max h1 h2)

/-- mtopResultAt: the span the specification assigns to a valid Double-Top
pair at position `i`: the two highs and the first intervening trough. -/
def mtopResultAt (candles : List Candle) (lows lastHighs : List Nat) (i : Nat) :
    PatternResult :=
  let h1Idx := lastHighs.getD (i - 1) 0
  let h2Idx := lastHighs.getD i 0
  let midLows := lows.filter fun x => decide (h1Idx < x) && decide (x < h2Idx)
  ⟨"M-top", [h1Idx, h2Idx, midLows.headD 0]⟩

/-- mtopSpec: specification-shaped Double-Top matcher: the first position (in
the order actually scanned) passing `mtopValid` yields its span. -/
def mtopSpec (candles : List Candle) : Option PatternResult :=
  let piv := findPivots candles 2
  if piv.1.length < 2 ∨ piv.2.length < 1 then none
  else
    let lastHighs := piv.1.drop (piv.1.length - 4)
    ((descRange (lastHighs.length - 2) 1).find? (mtopValid candles piv.2 lastHighs)).map
      (mtopResultAt candles piv.2 lastHighs)

/-- hsValid: specification wording (as amended) of the Head-and-Shoulders
validity test for the triple starting at position `i`: the head is strictly
more than 1% above both shoulders, the shoulders are within 2% tolerance, at
least 2 low pivots lie strictly between the shoulders, and the first and last
of those neckline lows are within 2% tolerance. -/
def hsValid (candles : List Candle) (lows lastHighs : List Nat) (i : Nat) : Bool :=
  let lsIdx := lastHighs.getD i 0
  let rsIdx := lastHighs.getD (i + 2) 0
  let ls := (candles.getD lsIdx default).high
  let head := (candles.getD (lastHighs.getD (i + 1) 0) default).high
  let rs := (candles.getD rsIdx default).high
  let neckLows := lows.filter fun x => decide (lsIdx < x) && decide (x < rsIdx)
  decide (head > ls * 1.01) && decide (head > rs * 1.01) &&
    approxEqual ls rs 0.02 && decide (2 ≤ neckLows.length) &&
    approxEqual (candles.getD (neckLows.getD 0 0) default).low
      (candles.getD (neckLows.getD (neckLows.length - 1) 0) default).low 0.02

/-- hsResultAt: the span the specification assigns to a valid
Head-and-Shoulders triple at position `i`. -/
def hsResultAt (candles : List Candle) (lows lastHighs : List Nat) (i : Nat) :
    PatternResult :=
  let lsIdx := lastHighs.getD i 0
  let rsIdx := lastHighs.getD (i + 2) 0
  let neckLows := lows.filter fun x => decide (lsIdx < x) && decide (x < rsIdx)
  ⟨"Head & Shoulders",
   [lsIdx, lastHighs.getD (i + 1) 0, rsIdx, neckLows.getD 0 0,
    neckLows.getD (neckLows.length - 1) 0]⟩

/-- hsSpec: specification-shaped Head-and-Shoulders matcher: the first triple
(most recent first) passing `hsValid` yields its span; no fallback beyond the
last 6 high pivots. -/
def hsSpec (candles : List Candle) : Option PatternResult :=
  let piv := findPivots candles 2
  if piv.1.length < 3 ∨ piv.2.length < 2 then none
  else
    let lastHighs := piv.1.drop (piv.1.length - 6)
    if lastHighs.length < 3 then none
    else
      ((descRange (lastHighs.length - 3) 0).find? (hsValid candles piv.2 lastHighs)).map
        (hsResultAt candles piv.2 lastHighs)

/-- invMValid: specification wording of the Double-Bottom (Inverted M)
validity test, mirror of `mtopValid`. -/
def invMValid (candles : List Candle) (highs lastLows : List Nat) (i : Nat) : Bool :=
  let l1Idx := lastLows.getD (i - 1) 0
  let l2Idx := lastLows.getD i 0
  let midHighs := highs.filter fun x => decide (l1Idx < x) && decide (x < l2Idx)
  let l1 := (candles.getD l1Idx default).low
  let l2 := (candles.getD l2Idx default).low
  let peak := (candles.getD (midHighs.headD 0) default).high
  decide (midHighs ≠ []) && approxEqual l1 l2 0.015 &&
    decide (0.01 ≤ (peak - min l1 l2) / min l1 l2)

/-- invMResultAt: the span assigned to a valid Double-Bottom pair: the two
lows and the first intervening peak. -/
def invMResultAt (candles : List Candle) (highs lastLows : List Nat) (i : Nat) :
    PatternResult :=
  let l1Idx := lastLows.getD (i - 1) 0
  let l2Idx := lastLows.getD i 0
  let midHighs := highs.filter fun x => decide (l1Idx < x) && decide (x < l2Idx)
  ⟨"Inverted M", [l1Idx, l2Idx, midHighs.headD 0]⟩

/-- emaSpecAux: recursive smoothing exactly as the specification words it:
each subsequent value is `k * v + (1 - k) * previous`. -/
def emaSpecAux (k prev : ℚ) : List ℚ → List ℚ
  | [] => []
  | v :: rest => (k * v + (1 - k) * prev) :: emaSpecAux k (k * v + (1 - k) * prev) rest

/-- emaSpec: the EMA series as the specification words it: undefined (empty)
below `period` values, seeded with the simple average of the first `period`
values, then standard recursive smoothing with `k = 2 / (period + 1)`. -/
def emaSpec (values : List ℚ) (period : Nat) : List ℚ :=
  if values.length < period then []
  else
    (values.take period).sum / (period : ℚ) ::
      emaSpecAux (2 / ((period : ℚ) + 1)) ((values.take period).sum / (period : ℚ))
        (values.drop period)

/-! Shared helper lemmas. -/

/-- Helper: a `findSome?` scan whose step function is an `if`-guarded
constructor equals `find?` followed by `map`. -/
theorem findSome?_eq_find?_map {α β : Type _} (f : α → Option β) (v : α → Bool)
    (g : α → β) (hfv : ∀ a, f a = if v a then some (g a) else none) :
    ∀ l : List α, l.findSome? f = (l.find? v).map g := by
  intro l
  induction l with
  | nil => rfl
  | cons a t ih =>
    rw [List.findSome?_cons, List.find?_cons, hfv a]
    by_cases h : v a = true
    · simp [h]
    · simp only [Bool.not_eq_true] at h
      simp [h, ih]

/-- Helper: if a `findSome?` scan succeeds, some list element made it
succeed. -/
theorem exists_of_findSome?_eq_some {α β : Type _} {f : α → Option β} {b : β} :
    ∀ {l : List α}, l.findSome? f = some b → ∃ a ∈ l, f a = some b := by
  intro l
  induction l with
  | nil => intro h; simp [List.findSome?] at h
  | cons a t ih =>
    intro h
    rw [List.findSome?_cons] at h
    cases hfa : f a with
    | some c =>
      rw [hfa] at h
      simp only [] at h
      exact ⟨a, by simp, by rw [hfa, h]⟩
    | none =>
      rw [hfa] at h
      simp only [] at h
      obtain ⟨x, hx, hfx⟩ := ih h
      exact ⟨x, by simp [hx], hfx⟩

/-- Helper: the high-side window test is the universally quantified bound of
the specification, for any in-range centre index. -/
theorem isHighAt_iff (candles : List Candle) (L i : Nat) (hLi : L ≤ i) :
    isHighAt candles L i = true ↔
      ∀ j, i - L ≤ j → j ≤ i + L →
        (candles.getD j default).high ≤ (candles.getD i default).high := by
  unfold isHighAt
  rw [List.all_eq_true]
  constructor
  · intro h j hj1 hj2
    have hm : j ∈ List.range' (i - L) (2 * L + 1) := by
      rw [List.mem_range'_1]; omega
    have := h j hm
    simpa [not_lt] using this
  · intro h x hx
    rw [List.mem_range'_1] at hx
    have := h x (by omega) (by omega)
    simpa [not_lt] using this

/-- Helper: the low-side window test, symmetrically. -/
theorem isLowAt_iff (candles : List Candle) (L i : Nat) (hLi : L ≤ i) :
    isLowAt candles L i = true ↔
      ∀ j, i - L ≤ j → j ≤ i + L →
        (candles.getD i default).low ≤ (candles.getD j default).low := by
  unfold isLowAt
  rw [List.all_eq_true]
  constructor
  · intro h j hj1 hj2
    have hm : j ∈ List.range' (i - L) (2 * L + 1) := by
      rw [List.mem_range'_1]; omega
    have := h j hm
    simpa [not_lt] using this
  · intro h x hx
    rw [List.mem_range'_1] at hx
    have := h x (by omega) (by omega)
    simpa [not_lt] using this

/-- Helper: both pivot index sequences are strictly increasing. -/
theorem findPivots_sorted (candles : List Candle) (L : Nat) :
    List.Pairwise (· < ·) (findPivots candles L).1 ∧
      List.Pairwise (· < ·) (findPivots candles L).2 :=
  ⟨List.Pairwise.filter _ (List.pairwise_lt_range' _ _),
   List.Pairwise.filter _ (List.pairwise_lt_range' _ _)⟩

/-! Claim theorems. -/

/-- C3: for every candle series and lookback L, index i (with
L ≤ i < length − L) is a high pivot iff candle i's high is ≥ every high in
the window [i−L, i+L] (ties count, so a flat-top run registers every index),
with the symmetric ≤ rule on lows; the two returned index sequences are in
ascending order and no pivot is produced for the first or last L indices. -/
theorem c3_pivot_extractor_characterization (candles : List Candle) (L i : Nat) :
    (i ∈ (findPivots candles L).1 ↔
      L ≤ i ∧ i + L < candles.length ∧
        ∀ j, i - L ≤ j → j ≤ i + L →
          (candles.getD j default).high ≤ (candles.getD i default).high)
    ∧ (i ∈ (findPivots candles L).2 ↔
      L ≤ i ∧ i + L < candles.length ∧
        ∀ j, i - L ≤ j → j ≤ i + L →
          (candles.getD i default).low ≤ (candles.getD j default).low)
    ∧ List.Pairwise (· < ·) (findPivots candles L).1
    ∧ List.Pairwise (· < ·) (findPivots candles L).2 := by
  refine ⟨?_, ?_, (findPivots_sorted candles L).1, (findPivots_sorted candles L).2⟩
  · unfold findPivots
    simp only [List.mem_filter, List.mem_range'_1]
    constructor
    · rintro ⟨⟨h1, h2⟩, hp⟩
      exact ⟨h1, by omega, (isHighAt_iff candles L i h1).1 hp⟩
    · rintro ⟨h1, h2, hp⟩
      exact ⟨⟨h1, by omega⟩, (isHighAt_iff candles L i h1).2 hp⟩
  · unfold findPivots
    simp only [List.mem_filter, List.mem_range'_1]
    constructor
    · rintro ⟨⟨h1, h2⟩, hp⟩
      exact ⟨h1, by omega, (isLowAt_iff candles L i h1).1 hp⟩
    · rintro ⟨h1, h2, hp⟩
      exact ⟨⟨h1, by omega⟩, (isLowAt_iff candles L i h1).2 hp⟩

/-- C4 counterexample: on a flat series of seven identical bars with
lookback 3, index 3 is returned both as a high pivot and as a low pivot, so
the two sequences are not disjoint. -/
theorem c4_disjointness_counterexample :
    findPivots exFlat 3 = ([3], [3]) ∧
      3 ∈ (findPivots exFlat 3).1 ∧ 3 ∈ (findPivots exFlat 3).2 := by
  decide

/-- C4 (amended): for every candle series and lookback, the indices are
strictly increasing within each returned sequence; an index can however
appear in both sequences (a bar that is simultaneously the window maximum by
high and the window minimum by low, as in a flat series, is reported as both
a high pivot and a low pivot). -/
theorem c4_pivot_sequences_sorted (candles : List Candle) (L : Nat) :
    List.Sorted (· < ·) (findPivots candles L).1 ∧
      List.Sorted (· < ·) (findPivots candles L).2 :=
  findPivots_sorted candles L

/-- C5: fewer than 60 candles gives neutral with the insufficient-data
reason (spelled "Not enough data" in the code); 60 ≤ length < 200 gives
neutral with the EMA-data reason ("Not enough EMA data") regardless of price
shape, because EMA(200) is undefined; both are ordinary return values, not
faults. -/
theorem c5_trend_insufficient_data (candles : List Candle) :
    (candles.length < 60 →
      detectTrendHTF candles = ⟨"neutral", "Not enough data"⟩)
    ∧ (60 ≤ candles.length → candles.length < 200 →
      detectTrendHTF candles = ⟨"neutral", "Not enough EMA data"⟩) := by
  constructor
  · intro h
    unfold detectTrendHTF
    rw [if_pos h]
  · intro h1 h2
    have hema : ema (candles.map (·.close)) 200 = [] := by
      unfold ema
      rw [if_pos (by simpa using h2)]
    unfold detectTrendHTF
    rw [if_neg (by omega)]
    simp [hema]

/-- C5 witness: a 59-bar series takes the insufficient-data branch and a
60-bar series takes the EMA-data branch. -/
theorem c5_trend_insufficient_data_witness :
    detectTrendHTF (List.replicate 59 (mkC 100)) = ⟨"neutral", "Not enough data"⟩
    ∧ detectTrendHTF (List.replicate 60 (mkC 100)) =
        ⟨"neutral", "Not enough EMA data"⟩ :=
  ⟨(c5_trend_insufficient_data _).1 (by simp),
   (c5_trend_insufficient_data _).2 (by simp) (by simp)⟩

/-- C1: the confluence gate emits a signal only under full higher-timeframe
agreement: with both trends bearish it emits the bearish signal built from
the Double-Top match when present, else the Head-and-Shoulders match; with
both bullish, from the Double-Bottom (Inverted M) match when present, else
the Inverse Head-and-Shoulders match; in every other case it returns none,
for all pattern-matcher outputs.  `detectPatternWithConfluence` is exactly
`gateCore` applied to the four matcher outputs. -/
theorem c1_confluence_gate (candles : List Candle) (tfLabel : String)
    (dayTrend weekTrend : Trend) (mTop invM hs invHs : Option PatternResult) :
    detectPatternWithConfluence candles tfLabel dayTrend weekTrend =
      gateCore candles tfLabel dayTrend weekTrend (detectMTop candles)
        (detectInvertedM candles) (detectHeadAndShoulders candles)
        (detectInverseHeadAndShoulders candles)
    ∧ (dayTrend.trend = "bearish" → weekTrend.trend = "bearish" →
        gateCore candles tfLabel dayTrend weekTrend mTop invM hs invHs =
          (mTop.orElse fun _ => hs).map
            fun p => buildPatternSignal "bearish" tfLabel p candles)
    ∧ (dayTrend.trend = "bullish" → weekTrend.trend = "bullish" →
        gateCore candles tfLabel dayTrend weekTrend mTop invM hs invHs =
          (invM.orElse fun _ => invHs).map
            fun p => buildPatternSignal "bullish" tfLabel p candles)
    ∧ (¬(dayTrend.trend = "bearish" ∧ weekTrend.trend = "bearish") →
       ¬(dayTrend.trend = "bullish" ∧ weekTrend.trend = "bullish") →
        gateCore candles tfLabel dayTrend weekTrend mTop invM hs invHs = none) := by
  refine ⟨rfl, ?_, ?_, ?_⟩
  · intro hd hw
    unfold gateCore
    cases mTop <;> cases hs <;> simp [hd, hw, Option.orElse]
  · intro hd hw
    unfold gateCore
    cases invM <;> cases invHs <;> simp [hd, hw, Option.orElse]
  · intro h1 h2
    have e1 : (dayTrend.trend == "bearish" && weekTrend.trend == "bearish") = false := by
      by_contra hc
      rw [Bool.not_eq_false, Bool.and_eq_true, beq_iff_eq, beq_iff_eq] at hc
      exact h1 hc
    have e2 : (dayTrend.trend == "bullish" && weekTrend.trend == "bullish") = false := by
      by_contra hc
      rw [Bool.not_eq_false, Bool.and_eq_true, beq_iff_eq, beq_iff_eq] at hc
      exact h2 hc
    unfold gateCore
    cases hm : mTop.orElse fun _ => hs <;> cases hi : invM.orElse fun _ => invHs <;>
      simp [e1, e2, hm, hi]

/-- C1 witness: both-bearish trends with only a Double-Top match give the
bearish signal built from it; mixed trends give none whatever matches are
present. -/
theorem c1_confluence_gate_witness :
    gateCore [] "1h" ⟨"bearish", "r"⟩ ⟨"bearish", "r"⟩ (some ⟨"M-top", [3, 9, 6]⟩)
        none none none =
      some (buildPatternSignal "bearish" "1h" ⟨"M-top", [3, 9, 6]⟩ [])
    ∧ gateCore [] "1h" ⟨"bullish", "r"⟩ ⟨"bearish", "r"⟩ (some ⟨"M-top", [3, 9, 6]⟩)
        (some ⟨"Inverted M", [1, 2, 3]⟩) none none = none := by
  constructor
  · have h := (c1_confluence_gate [] "1h" ⟨"bearish", "r"⟩ ⟨"bearish", "r"⟩
      (some ⟨"M-top", [3, 9, 6]⟩) none none none).2.1 rfl rfl
    simpa [Option.orElse] using h
  · exact (c1_confluence_gate [] "1h" ⟨"bullish", "r"⟩ ⟨"bearish", "r"⟩
      (some ⟨"M-top", [3, 9, 6]⟩) (some ⟨"Inverted M", [1, 2, 3]⟩) none none).2.2.2
      (by decide) (by decide)

/-- Helper: the code's EMA step accumulates the same values as the
specification's standard smoothing step. -/
theorem emaAux_eq_emaSpecAux (k : ℚ) :
    ∀ (l : List ℚ) (prev : ℚ), emaAux k prev l = emaSpecAux k prev l := by
  intro l
  induction l with
  | nil => intro prev; rfl
  | cons v rest ih =>
    intro prev
    show (v * k + prev * (1 - k)) :: emaAux k (v * k + prev * (1 - k)) rest =
      (k * v + (1 - k) * prev) :: emaSpecAux k (k * v + (1 - k) * prev) rest
    have he : v * k + prev * (1 - k) = k * v + (1 - k) * prev := by ring
    rw [he, ih]

/-- Helper: the code's `ema` equals the EMA series as the specification
words it. -/
theorem ema_eq_emaSpec (values : List ℚ) (period : Nat) :
    ema values period = emaSpec values period := by
  unfold ema emaSpec
  by_cases h : values.length < period
  · rw [if_pos h, if_pos h]
  · rw [if_neg h, if_neg h]
    show _ :: emaAux _ _ _ = _ :: emaSpecAux _ _ _
    rw [emaAux_eq_emaSpecAux]

/-- C6: with at least 200 candles the trend classifier computes EMA(50) and
EMA(200) over closes exactly as the specification describes them (seed =
simple average of the first period values, smoothing factor 2/(period+1)),
and classifies on the most recent values only: bullish iff
close > EMA50 > EMA200, bearish iff close < EMA50 < EMA200, otherwise
sideways. -/
theorem c6_trend_classifier_ema (candles : List Candle)
    (h : 200 ≤ candles.length) :
    ema (candles.map (·.close)) 50 = emaSpec (candles.map (·.close)) 50
    ∧ ema (candles.map (·.close)) 200 = emaSpec (candles.map (·.close)) 200
    ∧ detectTrendHTF candles =
        (let closes := candles.map (·.close)
         let ema50 := ema closes 50
         let ema200 := ema closes 200
         let lastClose := closes.getD (closes.length - 1) 0
         let lastEma50 := ema50.getD (ema50.length - 1) 0
         let lastEma200 := ema200.getD (ema200.length - 1) 0
         if lastClose > lastEma50 ∧ lastEma50 > lastEma200 then
           ⟨"bullish", "Close > EMA50 > EMA200"⟩
         else if lastClose < lastEma50 ∧ lastEma50 < lastEma200 then
           ⟨"bearish", "Close < EMA50 < EMA200"⟩
         else ⟨"sideways", "Mixed EMAs"⟩) := by
  refine ⟨ema_eq_emaSpec _ _, ema_eq_emaSpec _ _, ?_⟩
  have h60 : ¬(candles.length < 60) := by omega
  have hlen : ¬((candles.map (·.close)).length < 200) := by
    simpa using by omega
  have hne : (ema (candles.map (·.close)) 200).length ≠ 0 := by
    unfold ema
    rw [if_neg hlen]
    simp
  unfold detectTrendHTF
  rw [if_neg h60]
  show (if (ema (candles.map (·.close)) 200).length = 0 then _ else _) = _
  rw [if_neg hne]

set_option maxRecDepth 4000 in
/-- C6 witness: a flat 200-bar series reaches the EMA comparison and the
stated classification (which evaluates to sideways there). -/
theorem c6_trend_classifier_ema_witness :
    ema ((List.replicate 200 (mkC 100)).map (·.close)) 50 =
      emaSpec ((List.replicate 200 (mkC 100)).map (·.close)) 50
    ∧ ema ((List.replicate 200 (mkC 100)).map (·.close)) 200 =
      emaSpec ((List.replicate 200 (mkC 100)).map (·.close)) 200
    ∧ detectTrendHTF (List.replicate 200 (mkC 100)) =
        (let closes := (List.replicate 200 (mkC 100)).map (·.close)
         let ema50 := ema closes 50
         let ema200 := ema closes 200
         let lastClose := closes.getD (closes.length - 1) 0
         let lastEma50 := ema50.getD (ema50.length - 1) 0
         let lastEma200 := ema200.getD (ema200.length - 1) 0
         if lastClose > lastEma50 ∧ lastEma50 > lastEma200 then
           ⟨"bullish", "Close > EMA50 > EMA200"⟩
         else if lastClose < lastEma50 ∧ lastEma50 < lastEma200 then
           ⟨"bearish", "Close < EMA50 < EMA200"⟩
         else ⟨"sideways", "Mixed EMAs"⟩) :=
  c6_trend_classifier_ema (List.replicate 200 (mkC 100)) (by decide)

/-- Helper: one Double-Top loop step is the guarded constructor of its
specification-side validity test and span. -/
theorem mtopCheck_eq (c : List Candle) (lows lh : List Nat) (i : Nat) :
    mtopCheck c lows lh i =
      if mtopValid c lows lh i then some (mtopResultAt c lows lh i) else none := by
  simp only [mtopCheck, mtopValid, mtopResultAt]
  cases hm : List.filter
      (fun x => decide (List.getD lh (i - 1) 0 < x) && decide (x < List.getD lh i 0))
      lows with
  | nil => simp
  | cons l rest =>
    simp only [List.headD_cons]
    have hne : decide ((l :: rest : List Nat) ≠ []) = true :=
      decide_eq_true (List.cons_ne_nil _ _)
    cases hA : approxEqual (List.getD c (List.getD lh (i - 1) 0) default).high
        (List.getD c (List.getD lh i 0) default).high 0.015 with
    | false =>
      rw [Bool.not_false, Bool.and_false, Bool.false_and,
        if_pos (Eq.refl true), if_neg Bool.false_ne_true]
    | true =>
      cases hD : decide (0.01 ≤
          (max (List.getD c (List.getD lh (i - 1) 0) default).high
              (List.getD c (List.getD lh i 0) default).high -
            (List.getD c l default).low) /
          max (List.getD c (List.getD lh (i - 1) 0) default).high
            (List.getD c (List.getD lh i 0) default).high) with
      | false =>
        have hx : (max (List.getD c (List.getD lh (i - 1) 0) default).high
              (List.getD c (List.getD lh i 0) default).high -
              (List.getD c l default).low) /
            max (List.getD c (List.getD lh (i - 1) 0) default).high
              (List.getD c (List.getD lh i 0) default).high < 0.01 :=
          not_le.1 (of_decide_eq_false hD)
        rw [Bool.not_true, Bool.and_false,
          if_neg Bool.false_ne_true, if_neg Bool.false_ne_true, if_pos hx]
      | true =>
        have hx : ¬((max (List.getD c (List.getD lh (i - 1) 0) default).high
              (List.getD c (List.getD lh i 0) default).high -
              (List.getD c l default).low) /
            max (List.getD c (List.getD lh (i - 1) 0) default).high
              (List.getD c (List.getD lh i 0) default).high < 0.01) :=
          not_lt.2 (of_decide_eq_true hD)
        rw [Bool.not_true, if_neg Bool.false_ne_true, if_neg hx,
          Bool.and_true, Bool.and_true, hne, if_pos (Eq.refl true)]

/-- Helper: one Double-Bottom (Inverted M) loop step is the guarded
constructor of its specification-side validity test and span. -/
theorem invMCheck_eq (c : List Candle) (highs ll : List Nat) (i : Nat) :
    invMCheck c highs ll i =
      if invMValid c highs ll i then some (invMResultAt c highs ll i) else none := by
  simp only [invMCheck, invMValid, invMResultAt]
  cases hm : List.filter
      (fun x => decide (List.getD ll (i - 1) 0 < x) && decide (x < List.getD ll i 0))
      highs with
  | nil => simp
  | cons l rest =>
    simp only [List.headD_cons]
    have hne : decide ((l :: rest : List Nat) ≠ []) = true :=
      decide_eq_true (List.cons_ne_nil _ _)
    cases hA : approxEqual (List.getD c (List.getD ll (i - 1) 0) default).low
        (List.getD c (List.getD ll i 0) default).low 0.015 with
    | false =>
      rw [Bool.not_false, Bool.and_false, Bool.false_and,
        if_pos (Eq.refl true), if_neg Bool.false_ne_true]
    | true =>
      cases hD : decide (0.01 ≤
          ((List.getD c l default).high -
            min (List.getD c (List.getD ll (i - 1) 0) default).low
              (List.getD c (List.getD ll i 0) default).low) /
          min (List.getD c (List.getD ll (i - 1) 0) default).low
            (List.getD c (List.getD ll i 0) default).low) with
      | false =>
        have hx : ((List.getD c l default).high -
              min (List.getD c (List.getD ll (i - 1) 0) default).low
                (List.getD c (List.getD ll i 0) default).low) /
            min (List.getD c (List.getD ll (i - 1) 0) default).low
              (List.getD c (List.getD ll i 0) default).low < 0.01 :=
          not_le.1 (of_decide_eq_false hD)
        rw [Bool.not_true, Bool.and_false,
          if_neg Bool.false_ne_true, if_neg Bool.false_ne_true, if_pos hx]
      | true =>
        have hx : ¬(((List.getD c l default).high -
              min (List.getD c (List.getD ll (i - 1) 0) default).low
                (List.getD c (List.getD ll i 0) default).low) /
            min (List.getD c (List.getD ll (i - 1) 0) default).low
              (List.getD c (List.getD ll i 0) default).low < 0.01) :=
          not_lt.2 (of_decide_eq_true hD)
        rw [Bool.not_true, if_neg Bool.false_ne_true, if_neg hx,
          Bool.and_true, Bool.and_true, hne, if_pos (Eq.refl true)]

/-- Helper: one Head-and-Shoulders loop step is the guarded constructor of
its specification-side validity test and span. -/
theorem hsCheck_eq (c : List Candle) (lows lh : List Nat) (i : Nat) :
    hsCheck c lows lh i =
      if hsValid c lows lh i then some (hsResultAt c lows lh i) else none := by
  simp only [hsCheck, hsValid, hsResultAt]
  cases hG1 : decide ((List.getD c (List.getD lh (i + 1) 0) default).high >
      (List.getD c (List.getD lh i 0) default).high * 1.01) with
  | false =>
    simp only [Bool.false_and, Bool.not_false]
    rw [if_pos trivial, if_neg Bool.false_ne_true]
  | true =>
    cases hG2 : decide ((List.getD c (List.getD lh (i + 1) 0) default).high >
        (List.getD c (List.getD lh (i + 2) 0) default).high * 1.01) with
    | false =>
      simp only [Bool.true_and, Bool.and_false, Bool.false_and, Bool.not_false]
      rw [if_pos trivial, if_neg Bool.false_ne_true]
    | true =>
      simp only [Bool.true_and, Bool.not_true]
      rw [if_neg Bool.false_ne_true]
      cases hA1 : approxEqual (List.getD c (List.getD lh i 0) default).high
          (List.getD c (List.getD lh (i + 2) 0) default).high 0.02 with
      | false =>
        simp only [Bool.false_and, Bool.not_false]
        rw [if_pos trivial, if_neg Bool.false_ne_true]
      | true =>
        simp only [Bool.true_and, Bool.not_true]
        rw [if_neg Bool.false_ne_true]
        by_cases hL : (List.filter
            (fun x => decide (List.getD lh i 0 < x) && decide (x < List.getD lh (i + 2) 0))
            lows).length < 2
        · have hd3 : decide (2 ≤ (List.filter
              (fun x => decide (List.getD lh i 0 < x) && decide (x < List.getD lh (i + 2) 0))
              lows).length) = false := decide_eq_false (not_le.2 hL)
          rw [if_pos hL, hd3, Bool.false_and, if_neg Bool.false_ne_true]
        · have hd3 : decide (2 ≤ (List.filter
              (fun x => decide (List.getD lh i 0 < x) && decide (x < List.getD lh (i + 2) 0))
              lows).length) = true := decide_eq_true (not_lt.1 hL)
          rw [if_neg hL, hd3, Bool.true_and]
          cases hA2 : approxEqual
              (List.getD c (List.getD (List.filter
                (fun x => decide (List.getD lh i 0 < x) && decide (x < List.getD lh (i + 2) 0))
                lows) 0 0) default).low
              (List.getD c (List.getD (List.filter
                (fun x => decide (List.getD lh i 0 < x) && decide (x < List.getD lh (i + 2) 0))
                lows) ((List.filter
                (fun x => decide (List.getD lh i 0 < x) && decide (x < List.getD lh (i + 2) 0))
                lows).length - 1) 0) default).low 0.02 with
          | false =>
            rw [Bool.not_false, if_pos (Eq.refl true), if_neg Bool.false_ne_true]
          | true =>
            rw [Bool.not_true, if_neg Bool.false_ne_true, if_pos (Eq.refl true)]

/-- Helper: the code's Double-Top matcher equals the specification-shaped
first-valid-pair search over the same scan order. -/
theorem detectMTop_eq_mtopSpec (candles : List Candle) :
    detectMTop candles = mtopSpec candles := by
  simp only [detectMTop, mtopSpec]
  by_cases hg : (findPivots candles 2).1.length < 2 ∨ (findPivots candles 2).2.length < 1
  · rw [if_pos hg, if_pos hg]
  · rw [if_neg hg, if_neg hg]
    exact findSome?_eq_find?_map _ _ _ (mtopCheck_eq candles _ _) _

/-- Helper: the code's Head-and-Shoulders matcher equals the
specification-shaped first-valid-triple search over the same scan order. -/
theorem detectHS_eq_hsSpec (candles : List Candle) :
    detectHeadAndShoulders candles = hsSpec candles := by
  simp only [detectHeadAndShoulders, hsSpec]
  by_cases hg : (findPivots candles 2).1.length < 3 ∨ (findPivots candles 2).2.length < 2
  · rw [if_pos hg, if_pos hg]
  · rw [if_neg hg, if_neg hg]
    by_cases hl : ((findPivots candles 2).1.drop ((findPivots candles 2).1.length - 6)).length < 3
    · rw [if_pos hl, if_pos hl]
    · rw [if_neg hl, if_neg hl]
      exact findSome?_eq_find?_map _ _ _ (hsCheck_eq candles _ _) _

/-- Helper: evaluation of the Double-Top matcher on `exA`. -/
theorem detectMTop_exA_eval : detectMTop exA = some ⟨"M-top", [3, 9, 6]⟩ := by
  norm_num [detectMTop, findPivots, isHighAt, isLowAt, mkC, exA, descRange, mtopCheck,
    approxEqual, List.range', List.filter, List.all, List.getD, List.findSome?, List.drop]

/-- Helper: evaluation of the Double-Top matcher on `exB`. -/
theorem detectMTop_exB_eval : detectMTop exB = none := by
  norm_num [detectMTop, findPivots, isHighAt, isLowAt, mkC, exB, descRange, mtopCheck,
    approxEqual, List.range', List.filter, List.all, List.getD, List.findSome?, List.drop]

/-- Helper: evaluation of the Double-Top matcher on `exC`. -/
theorem detectMTop_exC_eval : detectMTop exC = none := by
  norm_num [detectMTop, findPivots, isHighAt, isLowAt, mkC, exC, descRange, mtopCheck,
    approxEqual, List.range', List.filter, List.all, List.getD, List.findSome?, List.drop]

/-- Helper: evaluation of the Head-and-Shoulders matcher on `exD`. -/
theorem detectHS_exD_eval : detectHeadAndShoulders exD = none := by
  norm_num [detectHeadAndShoulders, findPivots, isHighAt, isLowAt, mkC, exD, descRange,
    hsCheck, approxEqual, List.range', List.filter, List.all, List.getD, List.findSome?,
    List.drop]

/-- Helper: evaluation of the Head-and-Shoulders matcher on `exE`. -/
theorem detectHS_exE_eval :
    detectHeadAndShoulders exE = some ⟨"Head & Shoulders", [3, 9, 15, 6, 12]⟩ := by
  norm_num [detectHeadAndShoulders, findPivots, isHighAt, isLowAt, mkC, exE, descRange,
    hsCheck, approxEqual, List.range', List.filter, List.all, List.getD, List.findSome?,
    List.drop]

/-- C2 counterexample: `exC` has exactly two high pivots (3 and 9) whose
highs differ by exactly 1% (10100 = 10000 * 1.01, within the 1.5% tolerance)
and one low pivot (6) strictly between them whose low is exactly 2% below
the higher high, yet the Double-Top matcher returns none: the pair passes
the full validity test (`mtopValid` holds at position 1 of the pivot window
[3, 9]), but the loop starts at `lastHighs.length - 2` and stops at 1, so
its scanned position list `descRange (2 - 2) 1` is empty — the most recent
adjacent pair is never examined, and with only two high pivots no pair is
examined at all. -/
theorem c2_double_top_counterexample :
    detectMTop exC = none
    ∧ findPivots exC 2 = ([3, 9], [6])
    ∧ (exC.getD 9 default).high = (exC.getD 3 default).high * 1.01
    ∧ (exC.getD 6 default).low = (exC.getD 9 default).high * 0.98
    ∧ approxEqual (exC.getD 3 default).high (exC.getD 9 default).high 0.015 = true
    ∧ 0.01 ≤ (max (exC.getD 3 default).high (exC.getD 9 default).high -
        (exC.getD 6 default).low) /
        max (exC.getD 3 default).high (exC.getD 9 default).high
    ∧ mtopValid exC [6] [3, 9] 1 = true
    ∧ descRange (([3, 9] : List Nat).length - 2) 1 = [] := by
  refine ⟨detectMTop_exC_eval, ?_, ?_, ?_, ?_, ?_, ?_, by decide⟩ <;>
    norm_num [findPivots, isHighAt, isLowAt, mkC, exC, approxEqual, mtopValid,
      List.range', List.filter, List.all, List.getD]

/-- C2 (amended): the Double-Top matcher takes the last 4 high pivots and
examines the adjacent pairs (lastHighs[i-1], lastHighs[i]) for i from
lastHighs.length - 2 down to 1 — skipping the most recent adjacent pair —
and returns the first examined pair with at least one low pivot strictly
between them (the first such low is the trough), highs within 1.5% relative
tolerance and trough at least 1% below the higher high; with a third, more
recent high pivot after such a pair (`exA`) it returns the DoubleTop span,
with the pair's highs 2% apart (`exB`) it returns none, and with only the
two qualifying high pivots (`exC`) it returns none. -/
theorem c2_double_top_amended :
    (∀ candles, detectMTop candles = mtopSpec candles)
    ∧ detectMTop exA = some ⟨"M-top", [3, 9, 6]⟩
    ∧ detectMTop exB = none
    ∧ detectMTop exC = none :=
  ⟨detectMTop_eq_mtopSpec, detectMTop_exA_eval, detectMTop_exB_eval, detectMTop_exC_eval⟩

/-- C7 counterexample: `exD` has high pivots 3, 9, 15 forming the only
candidate triple, with the head exactly 1% above both shoulders
(10100 = 10000 * 1.01), equal shoulders, and two neckline lows (6 and 12)
strictly between the shoulders with equal lows, yet the matcher returns
none: the code requires the head to exceed the shoulders strictly by more
than 1% (`head > ls * 1.01`), so "≥ 1%" does not hold of it. -/
theorem c7_hs_counterexample :
    detectHeadAndShoulders exD = none
    ∧ findPivots exD 2 = ([3, 9, 15], [6, 12])
    ∧ (exD.getD 9 default).high = (exD.getD 3 default).high * 1.01
    ∧ (exD.getD 9 default).high = (exD.getD 15 default).high * 1.01
    ∧ approxEqual (exD.getD 3 default).high (exD.getD 15 default).high 0.02 = true
    ∧ approxEqual (exD.getD 6 default).low (exD.getD 12 default).low 0.02 = true := by
  refine ⟨detectHS_exD_eval, ?_, ?_, ?_, ?_, ?_⟩ <;>
    norm_num [findPivots, isHighAt, isLowAt, mkC, exD, approxEqual,
      List.range', List.filter, List.all, List.getD]

/-- C7 (amended): the Head-and-Shoulders matcher scans groups of 3
consecutive high pivots among the last 6, from most recent backward, and
returns the first group whose head exceeds both shoulders by strictly more
than 1%, with shoulders mutually within 2%, at least 2 low pivots strictly
between the shoulder indices, and the first and last of those neckline lows
within 2%, as the 5-index span; it returns none when no candidate group is
valid and never falls back to older pivots.  On `exE` (head strictly above
the 1% bound) it returns the span [3, 9, 15, 6, 12]; on the boundary series
`exD` it returns none. -/
theorem c7_hs_amended :
    (∀ candles, detectHeadAndShoulders candles = hsSpec candles)
    ∧ detectHeadAndShoulders exE = some ⟨"Head & Shoulders", [3, 9, 15, 6, 12]⟩
    ∧ detectHeadAndShoulders exD = none :=
  ⟨detectHS_eq_hsSpec, detectHS_exE_eval, detectHS_exD_eval⟩

/-- Helper: a non-empty list's optional head is its defaulted head. -/
theorem head?_eq_headD {l : List Nat} (h : l ≠ []) : l.head? = some (l.headD 0) := by
  cases l with
  | nil => exact absurd rfl h
  | cons a t => rfl

/-- C10: whenever the Double-Top matcher returns a match, the trough in the
returned span is the first low pivot strictly between the two outer pivots
(the earliest by index, not the deepest); symmetrically, the Inverted-M
matcher's intervening peak is the first high pivot strictly between the two
outer pivots (not the highest). -/
theorem c10_first_intervening_pivot (candles : List Candle) (r : PatternResult) :
    (detectMTop candles = some r →
      ∃ h1 h2 l, r.indices = [h1, h2, l] ∧
        ((findPivots candles 2).2.filter
          (fun x => decide (h1 < x) && decide (x < h2))).head? = some l)
    ∧ (detectInvertedM candles = some r →
      ∃ l1 l2 h, r.indices = [l1, l2, h] ∧
        ((findPivots candles 2).1.filter
          (fun x => decide (l1 < x) && decide (x < l2))).head? = some h) := by
  constructor
  · intro hr
    simp only [detectMTop] at hr
    by_cases hg : (findPivots candles 2).1.length < 2 ∨ (findPivots candles 2).2.length < 1
    · rw [if_pos hg] at hr
      exact absurd hr (by simp)
    · rw [if_neg hg] at hr
      obtain ⟨i, _, hstep⟩ := exists_of_findSome?_eq_some hr
      rw [mtopCheck_eq] at hstep
      by_cases hv : mtopValid candles (findPivots candles 2).2
          ((findPivots candles 2).1.drop ((findPivots candles 2).1.length - 4)) i
      · rw [if_pos hv] at hstep
        have hr' : r = mtopResultAt candles (findPivots candles 2).2
            ((findPivots candles 2).1.drop ((findPivots candles 2).1.length - 4)) i :=
          (Option.some.inj hstep).symm
        simp only [mtopValid, Bool.and_eq_true, decide_eq_true_eq] at hv
        obtain ⟨⟨hne, -⟩, -⟩ := hv
        refine ⟨((findPivots candles 2).1.drop
            ((findPivots candles 2).1.length - 4)).getD (i - 1) 0,
          ((findPivots candles 2).1.drop
            ((findPivots candles 2).1.length - 4)).getD i 0,
          ((findPivots candles 2).2.filter
            (fun x => decide (((findPivots candles 2).1.drop
                ((findPivots candles 2).1.length - 4)).getD (i - 1) 0 < x) &&
              decide (x < ((findPivots candles 2).1.drop
                ((findPivots candles 2).1.length - 4)).getD i 0))).headD 0, ?_, ?_⟩
        · rw [hr']
          rfl
        · exact head?_eq_headD hne
      · rw [if_neg hv] at hstep
        exact absurd hstep (by simp)
  · intro hr
    simp only [detectInvertedM] at hr
    by_cases hg : (findPivots candles 2).2.length < 2 ∨ (findPivots candles 2).1.length < 1
    · rw [if_pos hg] at hr
      exact absurd hr (by simp)
    · rw [if_neg hg] at hr
      obtain ⟨i, _, hstep⟩ := exists_of_findSome?_eq_some hr
      rw [invMCheck_eq] at hstep
      by_cases hv : invMValid candles (findPivots candles 2).1
          ((findPivots candles 2).2.drop ((findPivots candles 2).2.length - 4)) i
      · rw [if_pos hv] at hstep
        have hr' : r = invMResultAt candles (findPivots candles 2).1
            ((findPivots candles 2).2.drop ((findPivots candles 2).2.length - 4)) i :=
          (Option.some.inj hstep).symm
        simp only [invMValid, Bool.and_eq_true, decide_eq_true_eq] at hv
        obtain ⟨⟨hne, -⟩, -⟩ := hv
        refine ⟨((findPivots candles 2).2.drop
            ((findPivots candles 2).2.length - 4)).getD (i - 1) 0,
          ((findPivots candles 2).2.drop
            ((findPivots candles 2).2.length - 4)).getD i 0,
          ((findPivots candles 2).1.filter
            (fun x => decide (((findPivots candles 2).2.drop
                ((findPivots candles 2).2.length - 4)).getD (i - 1) 0 < x) &&
              decide (x < ((findPivots candles 2).2.drop
                ((findPivots candles 2).2.length - 4)).getD i 0))).headD 0, ?_, ?_⟩
        · rw [hr']
          rfl
        · exact head?_eq_headD hne
      · rw [if_neg hv] at hstep
        exact absurd hstep (by simp)

/-- C10 witness: on `exA` the Double-Top matcher returns the span [3, 9, 6]
and 6 is the first low pivot strictly between 3 and 9. -/
theorem c10_first_intervening_pivot_witness :
    ∃ h1 h2 l, (PatternResult.mk "M-top" [3, 9, 6]).indices = [h1, h2, l] ∧
      ((findPivots exA 2).2.filter
        (fun x => decide (h1 < x) && decide (x < h2))).head? = some l :=
  (c10_first_intervening_pivot exA ⟨"M-top", [3, 9, 6]⟩).1 detectMTop_exA_eval

/-- C8 counterexample: no fixed epsilon makes the code's tolerance predicate
equal to the specification's formula |a-b| / max(avg(|a|,|b|), epsilon) ≤ t
with a never-zero divisor: the JS fallback `avg || 1` replaces the average
only when it is exactly zero, whereas max(avg, epsilon) also replaces every
positive average below epsilon (take a := eps/8, b := eps/4, t := 1/3). -/
theorem c8_tolerance_counterexample :
    ¬ ∃ eps : ℚ, (∀ a b : ℚ, max ((|a| + |b|) / 2) eps ≠ 0) ∧
        (∀ a b t : ℚ, approxEqual a b t = true ↔
          |a - b| / max ((|a| + |b|) / 2) eps ≤ t) := by
  rintro ⟨eps, hnz, hiff⟩
  have heps : 0 < eps := by
    have h0 := hnz 0 0
    rw [abs_zero] at h0
    norm_num at h0
    exact h0
  have hne0 : eps ≠ 0 := ne_of_gt heps
  have ha : |eps / 8| = eps / 8 := abs_of_pos (by positivity)
  have hb : |eps / 4| = eps / 4 := abs_of_pos (by positivity)
  have hd : |eps / 8 - eps / 4| = eps / 8 := by
    rw [show eps / 8 - eps / 4 = -(eps / 8) by ring, abs_neg]
    exact abs_of_pos (by positivity)
  have havg : (|eps / 8| + |eps / 4|) / 2 = 3 * eps / 16 := by
    rw [ha, hb]; ring
  have havg0 : (|eps / 8| + |eps / 4|) / 2 ≠ 0 := by
    rw [havg]; positivity
  have hmax : max ((|eps / 8| + |eps / 4|) / 2) eps = eps := by
    rw [havg]; exact max_eq_right (by linarith)
  have hquot : eps / 8 / (3 * eps / 16) = 2 / 3 := by
    field_simp
    ring
  have hval : approxEqual (eps / 8) (eps / 4) (1 / 3) = false := by
    simp only [approxEqual]
    rw [if_neg havg0, hd, havg, hquot]
    norm_num
  have hspec : |eps / 8 - eps / 4| / max ((|eps / 8| + |eps / 4|) / 2) eps ≤ 1 / 3 := by
    rw [hd, hmax, div_div]
    rw [show (8 : ℚ) * eps = eps * 8 by ring, ← div_div, div_self hne0]
    norm_num
  have := (hiff (eps / 8) (eps / 4) (1 / 3)).2 hspec
  rw [hval] at this
  exact Bool.false_ne_true this

/-- C8 (amended): the tolerance predicate holds iff |a-b| / d ≤ t where d is
the average magnitude avg(|a|,|b|) when that average is nonzero and the
fallback 1 exactly when it is zero (which happens iff both inputs are zero);
the divisor is never zero, so the evaluation never divides by exactly
zero. -/
theorem c8_tolerance_amended (a b t : ℚ) :
    (if (|a| + |b|) / 2 = 0 then (1 : ℚ) else (|a| + |b|) / 2) ≠ 0
    ∧ ((|a| + |b|) / 2 = 0 ↔ a = 0 ∧ b = 0)
    ∧ (approxEqual a b t = true ↔
        |a - b| / (if (|a| + |b|) / 2 = 0 then (1 : ℚ) else (|a| + |b|) / 2) ≤ t)
    ∧ (¬(a = 0 ∧ b = 0) →
        (approxEqual a b t = true ↔ |a - b| / ((|a| + |b|) / 2) ≤ t))
    ∧ (a = 0 → b = 0 → (approxEqual a b t = true ↔ 0 ≤ t)) := by
  have habs : (|a| + |b|) / 2 = 0 ↔ a = 0 ∧ b = 0 := by
    constructor
    · intro h
      have h2 : |a| + |b| = 0 := by linarith
      have hA := abs_nonneg a
      have hB := abs_nonneg b
      constructor
      · exact abs_eq_zero.1 (by linarith)
      · exact abs_eq_zero.1 (by linarith)
    · rintro ⟨rfl, rfl⟩
      simp
  refine ⟨?_, habs, ?_, ?_, ?_⟩
  · by_cases h : (|a| + |b|) / 2 = 0
    · rw [if_pos h]; norm_num
    · rw [if_neg h]; exact h
  · simp only [approxEqual, decide_eq_true_eq]
  · intro hab
    have hne : (|a| + |b|) / 2 ≠ 0 := fun h => hab (habs.1 h)
    simp only [approxEqual, decide_eq_true_eq]
    rw [if_neg hne]
  · rintro rfl rfl
    simp only [approxEqual, decide_eq_true_eq]
    norm_num

/-- C8 witness: both-zero input takes the fallback divisor 1 and the
predicate reduces to 0 ≤ t. -/
theorem c8_tolerance_amended_witness :
    approxEqual 0 0 5 = true ↔ (0 : ℚ) ≤ 5 :=
  (c8_tolerance_amended 0 0 5).2.2.2.2 rfl rfl

/-- Helper: the optional minimum of a natural-number list is invariant under
permutation. -/
theorem min?_perm {l1 l2 : List Nat} (h : l1.Perm l2) : l1.min? = l2.min? := by
  cases hm : l2.min? with
  | none =>
    have h2 : l2 = [] := by
      cases l2 with
      | nil => rfl
      | cons x xs => exact absurd hm (by simp [List.min?])
    subst h2
    rw [List.Perm.eq_nil h]
    rfl
  | some m =>
    obtain ⟨hmem, hall⟩ := List.min?_eq_some_iff'.1 hm
    rw [List.min?_eq_some_iff']
    exact ⟨h.mem_iff.2 hmem, fun b hb => hall b (h.mem_iff.1 hb)⟩

/-- Helper: the optional maximum of a natural-number list is invariant under
permutation. -/
theorem max?_perm {l1 l2 : List Nat} (h : l1.Perm l2) : l1.max? = l2.max? := by
  cases hm : l2.max? with
  | none =>
    have h2 : l2 = [] := by
      cases l2 with
      | nil => rfl
      | cons x xs => exact absurd hm (by simp [List.max?])
    subst h2
    rw [List.Perm.eq_nil h]
    rfl
  | some m =>
    obtain ⟨hmem, hall⟩ := List.max?_eq_some_iff'.1 hm
    rw [List.max?_eq_some_iff']
    exact ⟨h.mem_iff.2 hmem, fun b hb => hall b (h.mem_iff.1 hb)⟩

/-- Helper: in a list whose bars are pairwise time-ordered, the defaulted
lookup of an earlier index has a time at most that of a later in-range
index. -/
theorem getD_time_mono (candles : List Candle)
    (hmono : List.Pairwise (fun c1 c2 => c1.time ≤ c2.time) candles)
    (i j : Nat) (hij : i ≤ j) (hj : j < candles.length) :
    (candles.getD i default).time ≤ (candles.getD j default).time := by
  have hi : i < candles.length := lt_of_le_of_lt hij hj
  rw [List.getD_eq_get candles default hi, List.getD_eq_get candles default hj]
  rcases eq_or_lt_of_le hij with rfl | hlt
  · exact le_refl _
  · exact List.pairwise_iff_get.1 hmono ⟨i, hi⟩ ⟨j, hj⟩ hlt

/-- C9: for a time-ordered candle series and a match whose span indices are
in range, the Signal Builder window runs from the timestamp of the minimum
index to the timestamp of the maximum index, hence start ≤ end even when the
span is supplied out of chronological order; the window is invariant under
permutation of the span, and the Signal's direction is exactly the direction
passed in by the gate. -/
theorem c9_signal_builder (d tf : String) (p : PatternResult) (candles : List Candle)
    (hmono : List.Pairwise (fun c1 c2 => c1.time ≤ c2.time) candles)
    (hne : p.indices ≠ [])
    (hbound : ∀ i ∈ p.indices, i < candles.length) :
    (buildPatternSignal d tf p candles).direction = d
    ∧ (buildPatternSignal d tf p candles).pattern = p.type
    ∧ (∃ s e : Nat, p.indices.min? = some s ∧ p.indices.max? = some e ∧
        (buildPatternSignal d tf p candles).fromTime =
          some ((candles.getD s default).time) ∧
        (buildPatternSignal d tf p candles).toTime =
          some ((candles.getD e default).time) ∧
        (candles.getD s default).time ≤ (candles.getD e default).time)
    ∧ (∀ q : List Nat, q.Perm p.indices →
        buildPatternSignal d tf ⟨p.type, q⟩ candles = buildPatternSignal d tf p candles) := by
  obtain ⟨s, hs⟩ : ∃ s, p.indices.min? = some s := by
    cases hp : p.indices with
    | nil => exact absurd hp hne
    | cons x xs => exact ⟨_, rfl⟩
  obtain ⟨e, he⟩ : ∃ e, p.indices.max? = some e := by
    cases hp : p.indices with
    | nil => exact absurd hp hne
    | cons x xs => exact ⟨_, rfl⟩
  obtain ⟨hsmem, hsle⟩ := List.min?_eq_some_iff'.1 hs
  obtain ⟨hemem, hege⟩ := List.max?_eq_some_iff'.1 he
  have hslen : s < candles.length := hbound s hsmem
  have helen : e < candles.length := hbound e hemem
  have hlen : 0 < p.indices.length := List.length_pos.2 hne
  have hfromto : buildPatternSignal d tf p candles =
      { direction := d, pattern := p.type, timeframe := tf,
        fromTime := some ((candles.getD s default).time),
        toTime := some ((candles.getD e default).time) } := by
    simp only [buildPatternSignal]
    rw [if_pos hlen, hs, he]
    simp only []
    rw [List.get?_eq_get hslen, List.get?_eq_get helen,
      List.getD_eq_get candles default hslen, List.getD_eq_get candles default helen]
    rfl
  refine ⟨by rw [hfromto], by rw [hfromto],
    ⟨s, e, hs, he, by rw [hfromto], by rw [hfromto],
      getD_time_mono candles hmono s e (hsle e hemem) helen⟩, ?_⟩
  intro q hq
  simp only [buildPatternSignal]
  rw [min?_perm hq, max?_perm hq, List.Perm.length_eq hq]

/-- C9 witness: span [2, 0, 1] on three bars timestamped 10, 20, 30 yields
the window [10, 30] with start ≤ end, invariance under permutations of the
span, and the direction passed in. -/
theorem c9_signal_builder_witness :
    (buildPatternSignal "bearish" "1h" ⟨"M-top", [2, 0, 1]⟩ wCandles).direction = "bearish"
    ∧ (buildPatternSignal "bearish" "1h" ⟨"M-top", [2, 0, 1]⟩ wCandles).pattern =
        (PatternResult.mk "M-top" [2, 0, 1]).type
    ∧ (∃ s e : Nat, ([2, 0, 1] : List Nat).min? = some s ∧
        ([2, 0, 1] : List Nat).max? = some e ∧
        (buildPatternSignal "bearish" "1h" ⟨"M-top", [2, 0, 1]⟩ wCandles).fromTime =
          some ((wCandles.getD s default).time) ∧
        (buildPatternSignal "bearish" "1h" ⟨"M-top", [2, 0, 1]⟩ wCandles).toTime =
          some ((wCandles.getD e default).time) ∧
        (wCandles.getD s default).time ≤ (wCandles.getD e default).time)
    ∧ (∀ q : List Nat, q.Perm [2, 0, 1] →
        buildPatternSignal "bearish" "1h" ⟨"M-top", q⟩ wCandles =
          buildPatternSignal "bearish" "1h" ⟨"M-top", [2, 0, 1]⟩ wCandles) :=
  c9_signal_builder "bearish" "1h" ⟨"M-top", [2, 0, 1]⟩ wCandles
    (by decide) (by decide) (by decide)

end Scanner
